import Mathlib

/-!
Verification of the CorBas annotation core: the fallback semantic
classifiers of src/app.py and src/corbas_backend_NOCACHE.py
(get_semantic_fallback) and the per-token annotation logic of the
analyze handlers (analyze_text).
-/

namespace CorBas

/-- Lower-casing of a lemma, as Python str.lower applied per character
(all vocabulary entries are ASCII). -/
def py_lower (s : String) : String := String.mk (s.data.map Char.toLower)

/-! Vocabulary sets of the fallback classifier in src/app.py. -/

def emotion_positive : List String :=
  ["happy", "joy", "delighted", "pleased", "excited", "love", "wonderful"]

def emotion_negative : List String :=
  ["sad", "angry", "fear", "hate", "anxious", "worried", "upset", "depressed"]

def movement_verbs : List String :=
  ["go", "come", "move", "walk", "run", "travel", "arrive", "leave", "enter"]

def speech_verbs : List String :=
  ["say", "tell", "speak", "talk", "communicate", "discuss", "mention", "ask"]

def thought_verbs : List String :=
  ["think", "believe", "know", "understand", "consider", "realize", "remember"]

def positive_adj : List String :=
  ["good", "great", "excellent", "wonderful", "amazing", "beautiful", "perfect", "nice"]

def negative_adj : List String :=
  ["bad", "poor", "terrible", "awful", "horrible", "ugly", "wrong", "worse"]

def time_words : List String :=
  ["today", "tomorrow", "yesterday", "now", "then", "soon", "later", "before", "after"]

/-- Rule chain of the src/app.py classifier over the already
lower-cased lemma l: test the eight vocabulary sets in order, then fall
back to a part-of-speech-keyed default. -/
def semantic_rules (l pos : String) : String :=
  if l ∈ emotion_positive then "E1.1+"
  else if l ∈ emotion_negative then "E1.1-"
  else if l ∈ movement_verbs then "M1"
  else if l ∈ speech_verbs then "Q2.2"
  else if l ∈ thought_verbs then "X2.1"
  else if l ∈ positive_adj then "A5.1+"
  else if l ∈ negative_adj then "A5.1-"
  else if l ∈ time_words then "T1"
  else if pos = "NOUN" then "O2"
  else if pos = "PROPN" then "Z3"
  else if pos = "VERB" then "A3+"
  else if pos = "ADJ" then "A5"
  else if pos = "ADV" then "A13"
  else if pos = "NUM" then "N1"
  else if pos = "ADP" then "Z5"
  else if pos = "DET" then "Z5"
  else if pos = "PRON" then "Z8"
  else "Z99"

/-- Fallback semantic classifier of src/app.py (get_semantic_fallback,
lines 128-184): lower-case the lemma, then apply the rule chain. -/
def get_semantic_fallback (lemma_ pos : String) : String :=
  semantic_rules (py_lower lemma_) pos

/-! Vocabulary sets of the fallback classifier in
src/corbas_backend_NOCACHE.py. -/

def emotion_pos_nc : List String :=
  ["happy", "joy", "delighted", "pleased", "excited", "love", "wonderful"]

def emotion_neg_nc : List String :=
  ["sad", "angry", "fear", "hate", "anxious", "worried", "upset"]

def movement_nc : List String :=
  ["go", "come", "move", "walk", "run", "travel", "arrive", "leave"]

def speech_nc : List String :=
  ["say", "tell", "speak", "talk", "communicate", "discuss", "ask"]

def thought_nc : List String :=
  ["think", "believe", "know", "understand", "consider", "realize"]

/-- Rule chain of the src/corbas_backend_NOCACHE.py classifier over the
already lower-cased lemma l: five vocabulary sets, then the same
part-of-speech-keyed defaults. -/
def semantic_rules_nc (l pos : String) : String :=
  if l ∈ emotion_pos_nc then "E1.1+"
  else if l ∈ emotion_neg_nc then "E1.1-"
  else if l ∈ movement_nc then "M1"
  else if l ∈ speech_nc then "Q2.2"
  else if l ∈ thought_nc then "X2.1"
  else if pos = "NOUN" then "O2"
  else if pos = "PROPN" then "Z3"
  else if pos = "VERB" then "A3+"
  else if pos = "ADJ" then "A5"
  else if pos = "ADV" then "A13"
  else if pos = "NUM" then "N1"
  else if pos ∈ ["ADP", "DET"] then "Z5"
  else if pos = "PRON" then "Z8"
  else "Z99"

/-- Fallback semantic classifier of src/corbas_backend_NOCACHE.py
(get_semantic_fallback, lines 252-278): lower-case the lemma, then
apply the rule chain. -/
def get_semantic_fallback_nc (lemma_ pos : String) : String :=
  semantic_rules_nc (py_lower lemma_) pos

/-- True when the lower-cased lemma belongs to at least one of the eight
vocabulary sets of the app.py classifier. -/
def in_any_vocab (l : String) : Prop :=
  l ∈ emotion_positive ∨ l ∈ emotion_negative ∨ l ∈ movement_verbs ∨
  l ∈ speech_verbs ∨ l ∈ thought_verbs ∨ l ∈ positive_adj ∨
  l ∈ negative_adj ∨ l ∈ time_words

instance (l : String) : Decidable (in_any_vocab l) := by
  unfold in_any_vocab
  infer_instance

/-- True when the lower-cased lemma belongs to at least one of the five
vocabulary sets of the NOCACHE classifier. -/
def in_any_vocab_nc (l : String) : Prop :=
  l ∈ emotion_pos_nc ∨ l ∈ emotion_neg_nc ∨ l ∈ movement_nc ∨
  l ∈ speech_nc ∨ l ∈ thought_nc

instance (l : String) : Decidable (in_any_vocab_nc l) := by
  unfold in_any_vocab_nc
  infer_instance

/-! Per-token annotation logic of the analyze handlers. A raw token as
exposed by the external pipeline; pymusas_tags is some list when the
token carries the external semantic-tag attribute (hasattr true) and
none when it does not. -/

structure RawToken where
  text : String
  pos : String
  tag : String
  dep : String
  head_i : Nat
  lemma_ : String
  is_stop : Bool
  is_punct : Bool
  pymusas_tags : Option (List String)
deriving Repr, DecidableEq

structure TokenAnnot where
  word : String
  pos : String
  tag : String
  semantic : String
  dep : String
  head : Nat
  lemma_ : String
  is_stop : Bool
  is_punct : Bool
deriving Repr, DecidableEq

/-- Semantic assignment of the analyze_text loop (src/app.py lines
94-98): when the external tagger is in use and the token carries the
tag attribute, take the first tag or the sentinel Z99 for an empty
list; otherwise invoke the fallback classifier. -/
def token_semantic (useExternalTagger : Bool) (t : RawToken) : String :=
  match useExternalTagger, t.pymusas_tags with
  | true, some tags =>
      match tags with
      | [] => "Z99"
      | c :: _ => c
  | true, none => get_semantic_fallback t.lemma_ t.pos
  | false, _ => get_semantic_fallback t.lemma_ t.pos

/-- Token annotation built by the analyze_text loop (src/app.py lines
100-110): all fields copied from the raw token, semantic computed by
token_semantic. -/
def annotate_token (useExternalTagger : Bool) (t : RawToken) : TokenAnnot :=
  { word := t.text
    pos := t.pos
    tag := t.tag
    semantic := token_semantic useExternalTagger t
    dep := t.dep
    head := t.head_i
    lemma_ := t.lemma_
    is_stop := t.is_stop
    is_punct := t.is_punct }

/-! Failure semantics of the normalizer. The error type and the
required-field validation are described in spec sections 4.2 and 7 but
are not implemented under src/ (the pipeline tokens there always
expose every field), so they are modelled from the spec; the
all-or-nothing aggregation mirrors the try/except around the whole
token loop of analyze_text. -/

/-- Modelled from the spec: the error raised when a raw token is
missing a required field (spec section 7; absent from src/). -/
inductive MalformedTokenError where
  | malformed : MalformedTokenError
deriving Repr, DecidableEq

/-- A raw token as received by the normalizer before validation: every
required field may be absent. -/
structure RawTokenOpt where
  text : Option String
  pos : Option String
  tag : Option String
  dep : Option String
  head_i : Option Nat
  lemma_ : Option String
  is_stop : Option Bool
  is_punct : Option Bool
  pymusas_tags : Option (List String)
deriving Repr, DecidableEq

/-- True when the raw token is missing at least one required field. -/
def has_missing_field (t : RawTokenOpt) : Bool :=
  t.text.isNone || t.pos.isNone || t.tag.isNone || t.dep.isNone ||
  t.head_i.isNone || t.lemma_.isNone || t.is_stop.isNone || t.is_punct.isNone

/-- Modelled from the spec: normalize (spec section 4.2) fails with
MalformedTokenError when the raw token is missing a required field and
otherwise builds the annotation exactly as the analyze_text loop does. -/
def normalize (useExternalTagger : Bool) (t : RawTokenOpt) :
    Except MalformedTokenError TokenAnnot :=
  match t.text, t.pos, t.tag, t.dep, t.head_i, t.lemma_, t.is_stop, t.is_punct with
  | some w, some p, some tg, some d, some hd, some lm, some st, some pu =>
      Except.ok (annotate_token useExternalTagger
        { text := w, pos := p, tag := tg, dep := d, head_i := hd,
          lemma_ := lm, is_stop := st, is_punct := pu,
          pymusas_tags := t.pymusas_tags })
  | _, _, _, _, _, _, _, _ => Except.error MalformedTokenError.malformed

/-- Whole-request analysis over a token sequence: the first normalizer
failure aborts the whole analysis (mirroring the try/except around the
token loop of analyze_text); no partial annotation list is returned. -/
def analyze (useExternalTagger : Bool) :
    List RawTokenOpt → Except MalformedTokenError (List TokenAnnot)
  | [] => Except.ok []
  | t :: ts =>
      match normalize useExternalTagger t with
      | Except.error e => Except.error e
      | Except.ok a =>
          match analyze useExternalTagger ts with
          | Except.error e => Except.error e
          | Except.ok as => Except.ok (a :: as)

end CorBas

namespace CorBas

/-! Helper lemmas about the rule chains. -/

theorem semantic_rules_mem_codes (l pos : String) :
    semantic_rules l pos ∈
      ["E1.1+", "E1.1-", "M1", "Q2.2", "X2.1", "A5.1+", "A5.1-", "T1",
       "O2", "Z3", "A3+", "A5", "A13", "N1", "Z5", "Z8", "Z99"] := by
  by_cases h1 : l ∈ emotion_positive
  · simp [semantic_rules, h1]
  by_cases h2 : l ∈ emotion_negative
  · simp [semantic_rules, h1, h2]
  by_cases h3 : l ∈ movement_verbs
  · simp [semantic_rules, h1, h2, h3]
  by_cases h4 : l ∈ speech_verbs
  · simp [semantic_rules, h1, h2, h3, h4]
  by_cases h5 : l ∈ thought_verbs
  · simp [semantic_rules, h1, h2, h3, h4, h5]
  by_cases h6 : l ∈ positive_adj
  · simp [semantic_rules, h1, h2, h3, h4, h5, h6]
  by_cases h7 : l ∈ negative_adj
  · simp [semantic_rules, h1, h2, h3, h4, h5, h6, h7]
  by_cases h8 : l ∈ time_words
  · simp [semantic_rules, h1, h2, h3, h4, h5, h6, h7, h8]
  by_cases p1 : pos = "NOUN"
  · simp [semantic_rules, h1, h2, h3, h4, h5, h6, h7, h8, p1]
  by_cases p2 : pos = "PROPN"
  · simp [semantic_rules, h1, h2, h3, h4, h5, h6, h7, h8, p1, p2]
  by_cases p3 : pos = "VERB"
  · simp [semantic_rules, h1, h2, h3, h4, h5, h6, h7, h8, p1, p2, p3]
  by_cases p4 : pos = "ADJ"
  · simp [semantic_rules, h1, h2, h3, h4, h5, h6, h7, h8, p1, p2, p3, p4]
  by_cases p5 : pos = "ADV"
  · simp [semantic_rules, h1, h2, h3, h4, h5, h6, h7, h8, p1, p2, p3, p4, p5]
  by_cases p6 : pos = "NUM"
  · simp [semantic_rules, h1, h2, h3, h4, h5, h6, h7, h8, p1, p2, p3, p4, p5, p6]
  by_cases p7 : pos = "ADP"
  · simp [semantic_rules, h1, h2, h3, h4, h5, h6, h7, h8, p1, p2, p3, p4, p5, p6, p7]
  by_cases p8 : pos = "DET"
  · simp [semantic_rules, h1, h2, h3, h4, h5, h6, h7, h8, p1, p2, p3, p4, p5, p6, p7, p8]
  by_cases p9 : pos = "PRON"
  · simp [semantic_rules, h1, h2, h3, h4, h5, h6, h7, h8, p1, p2, p3, p4, p5, p6, p7, p8, p9]
  simp [semantic_rules, h1, h2, h3, h4, h5, h6, h7, h8, p1, p2, p3, p4, p5, p6, p7, p8, p9]

theorem semantic_rules_ne_empty (l pos : String) : semantic_rules l pos ≠ "" := by
  intro h
  have hm := semantic_rules_mem_codes l pos
  rw [h] at hm
  simp at hm

theorem semantic_rules_of_unmatched (l : String) (ha : ¬ in_any_vocab l)
    (pos : String) :
    semantic_rules l pos =
      (if pos = "NOUN" then "O2" else if pos = "PROPN" then "Z3"
       else if pos = "VERB" then "A3+" else if pos = "ADJ" then "A5"
       else if pos = "ADV" then "A13" else if pos = "NUM" then "N1"
       else if pos = "ADP" then "Z5" else if pos = "DET" then "Z5"
       else if pos = "PRON" then "Z8" else "Z99") := by
  unfold in_any_vocab at ha
  push_neg at ha
  obtain ⟨h1, h2, h3, h4, h5, h6, h7, h8⟩ := ha
  simp [semantic_rules, h1, h2, h3, h4, h5, h6, h7, h8]

theorem semantic_rules_nc_of_unmatched (l : String) (ha : ¬ in_any_vocab_nc l)
    (pos : String) :
    semantic_rules_nc l pos =
      (if pos = "NOUN" then "O2" else if pos = "PROPN" then "Z3"
       else if pos = "VERB" then "A3+" else if pos = "ADJ" then "A5"
       else if pos = "ADV" then "A13" else if pos = "NUM" then "N1"
       else if pos ∈ ["ADP", "DET"] then "Z5"
       else if pos = "PRON" then "Z8" else "Z99") := by
  unfold in_any_vocab_nc at ha
  push_neg at ha
  obtain ⟨g1, g2, g3, g4, g5⟩ := ha
  simp [semantic_rules_nc, g1, g2, g3, g4, g5]

end CorBas

namespace CorBas

/-- C10: for every (lemma, pos) input the app.py fallback classifier
terminates (it is a total Lean function) and returns one of the fixed
seventeen semantic codes, never the empty string. -/
theorem C10_classifier_total_codes (lemma_ pos : String) :
    get_semantic_fallback lemma_ pos ∈
      ["E1.1+", "E1.1-", "M1", "Q2.2", "X2.1", "A5.1+", "A5.1-", "T1",
       "O2", "Z3", "A3+", "A5", "A13", "N1", "Z5", "Z8", "Z99"] ∧
    get_semantic_fallback lemma_ pos ≠ "" :=
  ⟨semantic_rules_mem_codes (py_lower lemma_) pos,
   semantic_rules_ne_empty (py_lower lemma_) pos⟩

/-- C1: for a lemma whose lower-casing lies in none of the vocabulary
sets, both classifiers return the part-of-speech-keyed default code:
NOUN gives O2, PROPN gives Z3, VERB gives A3+, ADJ gives A5, ADV gives
A13, NUM gives N1, ADP and DET give Z5, PRON gives Z8, and any other
pos gives Z99; in particular classify("xyzzy", "NOUN") = "O2". -/
theorem C1_unmatched_lemma_defaults (lemma_ pos : String)
    (ha : ¬ in_any_vocab (py_lower lemma_))
    (hn : ¬ in_any_vocab_nc (py_lower lemma_)) :
    (get_semantic_fallback lemma_ "NOUN" = "O2" ∧
      get_semantic_fallback_nc lemma_ "NOUN" = "O2") ∧
    (get_semantic_fallback lemma_ "PROPN" = "Z3" ∧
      get_semantic_fallback_nc lemma_ "PROPN" = "Z3") ∧
    (get_semantic_fallback lemma_ "VERB" = "A3+" ∧
      get_semantic_fallback_nc lemma_ "VERB" = "A3+") ∧
    (get_semantic_fallback lemma_ "ADJ" = "A5" ∧
      get_semantic_fallback_nc lemma_ "ADJ" = "A5") ∧
    (get_semantic_fallback lemma_ "ADV" = "A13" ∧
      get_semantic_fallback_nc lemma_ "ADV" = "A13") ∧
    (get_semantic_fallback lemma_ "NUM" = "N1" ∧
      get_semantic_fallback_nc lemma_ "NUM" = "N1") ∧
    (get_semantic_fallback lemma_ "ADP" = "Z5" ∧
      get_semantic_fallback_nc lemma_ "ADP" = "Z5") ∧
    (get_semantic_fallback lemma_ "DET" = "Z5" ∧
      get_semantic_fallback_nc lemma_ "DET" = "Z5") ∧
    (get_semantic_fallback lemma_ "PRON" = "Z8" ∧
      get_semantic_fallback_nc lemma_ "PRON" = "Z8") ∧
    (pos ∉ ["NOUN", "PROPN", "VERB", "ADJ", "ADV", "NUM", "ADP", "DET", "PRON"] →
      get_semantic_fallback lemma_ pos = "Z99" ∧
      get_semantic_fallback_nc lemma_ pos = "Z99") ∧
    get_semantic_fallback "xyzzy" "NOUN" = "O2" := by
  have A := semantic_rules_of_unmatched (py_lower lemma_) ha
  have B := semantic_rules_nc_of_unmatched (py_lower lemma_) hn
  refine ⟨⟨(A "NOUN").trans (by decide), (B "NOUN").trans (by decide)⟩, ⟨(A "PROPN").trans (by decide), (B "PROPN").trans (by decide)⟩, ⟨(A "VERB").trans (by decide), (B "VERB").trans (by decide)⟩, ⟨(A "ADJ").trans (by decide), (B "ADJ").trans (by decide)⟩, ⟨(A "ADV").trans (by decide), (B "ADV").trans (by decide)⟩, ⟨(A "NUM").trans (by decide), (B "NUM").trans (by decide)⟩, ⟨(A "ADP").trans (by decide), (B "ADP").trans (by decide)⟩, ⟨(A "DET").trans (by decide), (B "DET").trans (by decide)⟩, ⟨(A "PRON").trans (by decide), (B "PRON").trans (by decide)⟩, ?_, by decide⟩
  intro hp
  simp only [List.mem_cons, List.mem_singleton] at hp
  push_neg at hp
  obtain ⟨q1, q2, q3, q4, q5, q6, q7, q8, q9⟩ := hp
  constructor
  · exact (A pos).trans (by simp [q1, q2, q3, q4, q5, q6, q7, q8, q9])
  · exact (B pos).trans (by simp [q1, q2, q3, q4, q5, q6, q7, q8, q9])

/-- Witness for C1 at the concrete unmatched lemma xyzzy and the
unlisted pos PUNCT. -/
theorem C1_witness :
    (¬ in_any_vocab (py_lower "xyzzy") ∧ ¬ in_any_vocab_nc (py_lower "xyzzy")) ∧
    get_semantic_fallback "xyzzy" "NOUN" = "O2" ∧
    get_semantic_fallback "xyzzy" "PUNCT" = "Z99" := by
  refine ⟨⟨by decide, by decide⟩, ?_, ?_⟩
  · exact (C1_unmatched_lemma_defaults "xyzzy" "PUNCT" (by decide) (by decide)).1.1
  · exact ((C1_unmatched_lemma_defaults "xyzzy" "PUNCT" (by decide) (by decide)).2.2.2.2.2.2.2.2.2.1 (by decide)).1

end CorBas

namespace CorBas

/-- C5: any lemma whose lower-casing is in the positive-emotion set is
classified E1.1+ by both classifiers whatever the pos; lookup is
case-insensitive, so classify("Happy", "ADJ") = "E1.1+". -/
theorem C5_positive_emotion_code (lemma_ pos : String)
    (h : py_lower lemma_ ∈ emotion_positive) :
    get_semantic_fallback lemma_ pos = "E1.1+" ∧
    get_semantic_fallback_nc lemma_ pos = "E1.1+" ∧
    get_semantic_fallback "Happy" "ADJ" = "E1.1+" := by
  refine ⟨?_, ?_, by decide⟩
  · show semantic_rules (py_lower lemma_) pos = "E1.1+"
    simp [semantic_rules, h]
  · show semantic_rules_nc (py_lower lemma_) pos = "E1.1+"
    have h2 : py_lower lemma_ ∈ emotion_pos_nc := h
    simp [semantic_rules_nc, h2]

/-- Witness for C5 at the concrete capitalised lemma Happy. -/
theorem C5_witness :
    py_lower "Happy" ∈ emotion_positive ∧
    get_semantic_fallback "Happy" "ADJ" = "E1.1+" :=
  ⟨by decide, (C5_positive_emotion_code "Happy" "ADJ" (by decide)).1⟩

/-- C3 counterexample: the vocabulary sets of the app.py classifier are
not pairwise disjoint, because the lemma wonderful belongs to both the
positive-emotion set and the positive-adjective set. -/
theorem C3_counterexample :
    ("wonderful" ∈ emotion_positive ∧ "wonderful" ∈ positive_adj) ∧
    ¬ List.Disjoint emotion_positive positive_adj :=
  ⟨⟨by decide, by decide⟩, fun h => @h "wonderful" (by decide) (by decide)⟩

/-- C3 amended: the vocabulary sets are pairwise disjoint except that
wonderful belongs to both the positive-emotion and positive-adjective
sets (their intersection is exactly that one lemma); a lemma present in
two sets resolves to the earliest-listed rule, so wonderful is
classified E1.1+ for every pos; the five NOCACHE sets are pairwise
disjoint. -/
theorem C3_amended_disjointness :
    (emotion_positive ∩ emotion_negative = [] ∧
    emotion_positive ∩ movement_verbs = [] ∧
    emotion_positive ∩ speech_verbs = [] ∧
    emotion_positive ∩ thought_verbs = [] ∧
    emotion_positive ∩ negative_adj = [] ∧
    emotion_positive ∩ time_words = [] ∧
    emotion_negative ∩ movement_verbs = [] ∧
    emotion_negative ∩ speech_verbs = [] ∧
    emotion_negative ∩ thought_verbs = [] ∧
    emotion_negative ∩ positive_adj = [] ∧
    emotion_negative ∩ negative_adj = [] ∧
    emotion_negative ∩ time_words = [] ∧
    movement_verbs ∩ speech_verbs = [] ∧
    movement_verbs ∩ thought_verbs = [] ∧
    movement_verbs ∩ positive_adj = [] ∧
    movement_verbs ∩ negative_adj = [] ∧
    movement_verbs ∩ time_words = [] ∧
    speech_verbs ∩ thought_verbs = [] ∧
    speech_verbs ∩ positive_adj = [] ∧
    speech_verbs ∩ negative_adj = [] ∧
    speech_verbs ∩ time_words = [] ∧
    thought_verbs ∩ positive_adj = [] ∧
    thought_verbs ∩ negative_adj = [] ∧
    thought_verbs ∩ time_words = [] ∧
    positive_adj ∩ negative_adj = [] ∧
    positive_adj ∩ time_words = [] ∧
    negative_adj ∩ time_words = [] ∧
    emotion_pos_nc ∩ emotion_neg_nc = [] ∧
    emotion_pos_nc ∩ movement_nc = [] ∧
    emotion_pos_nc ∩ speech_nc = [] ∧
    emotion_pos_nc ∩ thought_nc = [] ∧
    emotion_neg_nc ∩ movement_nc = [] ∧
    emotion_neg_nc ∩ speech_nc = [] ∧
    emotion_neg_nc ∩ thought_nc = [] ∧
    movement_nc ∩ speech_nc = [] ∧
    movement_nc ∩ thought_nc = [] ∧
    speech_nc ∩ thought_nc = [] ∧
    emotion_positive ∩ positive_adj = ["wonderful"]) ∧
    ∀ pos, get_semantic_fallback "wonderful" pos = "E1.1+" := by
  refine ⟨by decide, ?_⟩
  intro pos
  show semantic_rules (py_lower "wonderful") pos = "E1.1+"
  have h : py_lower "wonderful" ∈ emotion_positive := by decide
  simp [semantic_rules, h]

/-- C8: the two fallback classifiers are not extensionally equal; the
app.py classifier has adjective and temporal rules the NOCACHE variant
omits, so they disagree on good/ADJ, bad/ADJ and today/NOUN. -/
theorem C8_classifiers_differ :
    get_semantic_fallback "good" "ADJ" = "A5.1+" ∧
    get_semantic_fallback_nc "good" "ADJ" = "A5" ∧
    get_semantic_fallback "good" "ADJ" ≠ get_semantic_fallback_nc "good" "ADJ" ∧
    get_semantic_fallback "bad" "ADJ" = "A5.1-" ∧
    get_semantic_fallback_nc "bad" "ADJ" = "A5" ∧
    get_semantic_fallback "today" "NOUN" = "T1" ∧
    get_semantic_fallback_nc "today" "NOUN" = "O2" := by
  decide

end CorBas

namespace CorBas

/-- For an unmatched lemma and a pos outside the keyed defaults, the
app.py rule chain returns the sentinel Z99. -/
theorem semantic_rules_unmatched_Z99 (l pos : String)
    (ha : ¬ in_any_vocab l)
    (hp : pos ∉ ["NOUN", "PROPN", "VERB", "ADJ", "ADV", "NUM", "ADP", "DET", "PRON"]) :
    semantic_rules l pos = "Z99" := by
  rw [semantic_rules_of_unmatched l ha pos]
  simp only [List.mem_cons, List.mem_singleton] at hp
  push_neg at hp
  obtain ⟨q1, q2, q3, q4, q5, q6, q7, q8, q9⟩ := hp
  simp [q1, q2, q3, q4, q5, q6, q7, q8, q9]

/-- C2: when the external tagger is in use and the token carries a
non-empty external tag list, the annotation's semantic field is exactly
the first element of that list. -/
theorem C2_first_external_tag (t : RawToken) (c : String) (cs : List String)
    (h : t.pymusas_tags = some (c :: cs)) :
    (annotate_token true t).semantic = c := by
  simp [annotate_token, token_semantic, h]

/-- Witness for C2: the tag list M1, Z5 yields semantic M1. -/
theorem C2_witness :
    (annotate_token true
      { text := "cat", pos := "NOUN", tag := "NN", dep := "nsubj",
        head_i := 0, lemma_ := "cat", is_stop := false, is_punct := false,
        pymusas_tags := some ["M1", "Z5"] }).semantic = "M1" :=
  C2_first_external_tag _ "M1" ["Z5"] rfl

/-- C4: with the external tagger off, two tokens that differ only in
their external tag list receive identical annotations, and the semantic
field is the fallback classification of the lemma and pos. -/
theorem C4_fallback_ignores_tags (t : RawToken)
    (tags1 tags2 : Option (List String)) :
    annotate_token false { t with pymusas_tags := tags1 } =
      annotate_token false { t with pymusas_tags := tags2 } ∧
    (annotate_token false t).semantic = get_semantic_fallback t.lemma_ t.pos := by
  constructor <;> simp [annotate_token, token_semantic]

/-- C9: when the tagger initialized but a token lacks the external tag
attribute entirely, the semantic field comes from the fallback
classifier; the hard-coded sentinel Z99 arises only when the attribute
is present with an empty list. -/
theorem C9_absent_attribute_vs_empty_list (t : RawToken) :
    (t.pymusas_tags = none →
      (annotate_token true t).semantic = get_semantic_fallback t.lemma_ t.pos) ∧
    (t.pymusas_tags = some [] → (annotate_token true t).semantic = "Z99") := by
  constructor <;> intro h <;> simp [annotate_token, token_semantic, h]

/-- Witness for C9: a token without the attribute is classified by the
fallback, a token with an empty list gets Z99. -/
theorem C9_witness :
    (annotate_token true
      { text := "ran", pos := "VERB", tag := "VBD", dep := "ROOT",
        head_i := 0, lemma_ := "run", is_stop := false, is_punct := false,
        pymusas_tags := none }).semantic = get_semantic_fallback "run" "VERB" ∧
    (annotate_token true
      { text := "blorp", pos := "NOUN", tag := "NN", dep := "dobj",
        head_i := 0, lemma_ := "blorp", is_stop := false, is_punct := false,
        pymusas_tags := some [] }).semantic = "Z99" :=
  ⟨(C9_absent_attribute_vs_empty_list _).1 rfl,
   (C9_absent_attribute_vs_empty_list _).2 rfl⟩

/-- C6: on every code path the semantic field is non-empty (given that
the external tagger emits non-empty codes), and it is the sentinel Z99
exactly when no external tag exists and neither a vocabulary rule nor a
pos default applies. -/
theorem C6_semantic_never_empty (useExt : Bool) (t : RawToken)
    (hc : ∀ l, t.pymusas_tags = some l → ∀ c ∈ l, c ≠ "") :
    (annotate_token useExt t).semantic ≠ "" ∧
    (¬ in_any_vocab (py_lower t.lemma_) →
      t.pos ∉ ["NOUN", "PROPN", "VERB", "ADJ", "ADV", "NUM", "ADP", "DET", "PRON"] →
      (t.pymusas_tags = none ∨ t.pymusas_tags = some []) →
      (annotate_token useExt t).semantic = "Z99") := by
  have hfb : (annotate_token false t).semantic =
      semantic_rules (py_lower t.lemma_) t.pos := by
    simp [annotate_token, token_semantic, get_semantic_fallback]
  cases useExt with
  | false =>
      refine ⟨?_, ?_⟩
      · rw [hfb]
        exact semantic_rules_ne_empty _ _
      · intro hv hp _
        rw [hfb]
        exact semantic_rules_unmatched_Z99 (py_lower t.lemma_) t.pos hv hp
  | true =>
      rcases ht : t.pymusas_tags with _ | tl
      · have h1 : (annotate_token true t).semantic =
            semantic_rules (py_lower t.lemma_) t.pos := by
          simp [annotate_token, token_semantic, ht, get_semantic_fallback]
        refine ⟨?_, ?_⟩
        · rw [h1]
          exact semantic_rules_ne_empty _ _
        · intro hv hp _
          rw [h1]
          exact semantic_rules_unmatched_Z99 (py_lower t.lemma_) t.pos hv hp
      · rcases tl with _ | ⟨c, cs⟩
        · have h1 : (annotate_token true t).semantic = "Z99" := by
            simp [annotate_token, token_semantic, ht]
          refine ⟨by rw [h1]; decide, fun _ _ _ => h1⟩
        · have h1 : (annotate_token true t).semantic = c := by
            simp [annotate_token, token_semantic, ht]
          refine ⟨?_, ?_⟩
          · rw [h1]
            exact hc (c :: cs) ht c (List.mem_cons_self c cs)
          · intro _ _ hcon
            rcases hcon with h2 | h2 <;> simp [ht] at h2

/-- Witness for C6: a token with no external tag attribute, an unmatched
lemma and an unlisted pos gets the non-empty sentinel Z99. -/
theorem C6_witness :
    (annotate_token true
      { text := "?", pos := "PUNCT", tag := ".", dep := "punct",
        head_i := 0, lemma_ := "?", is_stop := false, is_punct := true,
        pymusas_tags := none }).semantic ≠ "" ∧
    (annotate_token true
      { text := "?", pos := "PUNCT", tag := ".", dep := "punct",
        head_i := 0, lemma_ := "?", is_stop := false, is_punct := true,
        pymusas_tags := none }).semantic = "Z99" := by
  have h := C6_semantic_never_empty true
    { text := "?", pos := "PUNCT", tag := ".", dep := "punct",
      head_i := 0, lemma_ := "?", is_stop := false, is_punct := true,
      pymusas_tags := none }
    (fun l hl => nomatch hl)
  exact ⟨h.1, h.2 (by decide) (by decide) (Or.inl rfl)⟩

end CorBas

namespace CorBas

/-- The normalizer fails exactly when a required field is missing. -/
theorem normalize_error_iff_missing (u : Bool) (t : RawTokenOpt) :
    (normalize u t = Except.error MalformedTokenError.malformed ↔
      has_missing_field t = true) := by
  obtain ⟨w, p, tg, d, hd, lm, st, pu, tags⟩ := t
  cases w <;> cases p <;> cases tg <;> cases d <;> cases hd <;> cases lm <;>
    cases st <;> cases pu <;> simp [normalize, has_missing_field]

/-- The normalizer succeeds on a token with every required field. -/
theorem normalize_ok_of_complete (u : Bool) (t : RawTokenOpt)
    (h : has_missing_field t = false) : ∃ a, normalize u t = Except.ok a := by
  obtain ⟨w, p, tg, d, hd, lm, st, pu, tags⟩ := t
  cases w <;> cases p <;> cases tg <;> cases d <;> cases hd <;> cases lm <;>
    cases st <;> cases pu <;> simp_all [normalize, has_missing_field]

/-- One malformed token anywhere in the sequence makes the whole
analysis fail. -/
theorem analyze_error_of_missing (u : Bool) (ts : List RawTokenOpt)
    (h : ∃ x ∈ ts, has_missing_field x = true) :
    analyze u ts = Except.error MalformedTokenError.malformed := by
  induction ts with
  | nil => simp at h
  | cons t ts ih =>
      rcases h with ⟨x, hx, hbad⟩
      rcases List.mem_cons.mp hx with rfl | hx2
      · have he := (normalize_error_iff_missing u x).mpr hbad
        simp [analyze, he]
      · unfold analyze
        rcases hn : normalize u t with e | a
        · cases e
          rfl
        · rw [ih ⟨x, hx2, hbad⟩]

/-- A sequence of complete tokens is analyzed in full, one annotation
per token. -/
theorem analyze_ok_of_complete (u : Bool) (ts : List RawTokenOpt)
    (h : ∀ x ∈ ts, has_missing_field x = false) :
    ∃ l, analyze u ts = Except.ok l ∧ l.length = ts.length := by
  induction ts with
  | nil => exact ⟨[], rfl, rfl⟩
  | cons t ts ih =>
      obtain ⟨a, ha⟩ := normalize_ok_of_complete u t (h t (List.mem_cons_self t ts))
      obtain ⟨l, hl, hlen⟩ := ih (fun x hx => h x (List.mem_cons_of_mem t hx))
      refine ⟨a :: l, ?_, by simp [hlen]⟩
      unfold analyze
      rw [ha, hl]

/-- C7: the normalizer fails with MalformedTokenError exactly when the
raw token is missing a required field, and such a failure aborts the
whole analysis: no token is skipped and no partial annotation list is
returned, while a fully well-formed sequence yields one annotation per
token. -/
theorem C7_malformed_token_failure (u : Bool) (t : RawTokenOpt)
    (ts : List RawTokenOpt) :
    (normalize u t = Except.error MalformedTokenError.malformed ↔
      has_missing_field t = true) ∧
    ((∃ x ∈ ts, has_missing_field x = true) →
      analyze u ts = Except.error MalformedTokenError.malformed) ∧
    ((∀ x ∈ ts, has_missing_field x = false) →
      ∃ l, analyze u ts = Except.ok l ∧ l.length = ts.length) :=
  ⟨normalize_error_iff_missing u t,
   analyze_error_of_missing u ts,
   analyze_ok_of_complete u ts⟩

/-- Witness for C7: a token with a missing text field aborts the whole
analysis, and a complete token is annotated. -/
theorem C7_witness :
    analyze true
      [{ text := none, pos := some "NOUN", tag := some "NN",
         dep := some "ROOT", head_i := some 0, lemma_ := some "cat",
         is_stop := some false, is_punct := some false,
         pymusas_tags := none }] =
      Except.error MalformedTokenError.malformed ∧
    ∃ l, analyze true
      [{ text := some "cat", pos := some "NOUN", tag := some "NN",
         dep := some "ROOT", head_i := some 0, lemma_ := some "cat",
         is_stop := some false, is_punct := some false,
         pymusas_tags := none }] = Except.ok l ∧ l.length = 1 := by
  have hb := C7_malformed_token_failure true
    { text := none, pos := some "NOUN", tag := some "NN",
      dep := some "ROOT", head_i := some 0, lemma_ := some "cat",
      is_stop := some false, is_punct := some false,
      pymusas_tags := none }
    [{ text := none, pos := some "NOUN", tag := some "NN",
       dep := some "ROOT", head_i := some 0, lemma_ := some "cat",
       is_stop := some false, is_punct := some false,
       pymusas_tags := none }]
  have hg := C7_malformed_token_failure true
    { text := some "cat", pos := some "NOUN", tag := some "NN",
      dep := some "ROOT", head_i := some 0, lemma_ := some "cat",
      is_stop := some false, is_punct := some false,
      pymusas_tags := none }
    [{ text := some "cat", pos := some "NOUN", tag := some "NN",
       dep := some "ROOT", head_i := some 0, lemma_ := some "cat",
       is_stop := some false, is_punct := some false,
       pymusas_tags := none }]
  constructor
  · exact hb.2.1 ⟨_, List.mem_singleton.mpr rfl, rfl⟩
  · exact hg.2.2 (fun x hx => by rw [List.mem_singleton] at hx; subst hx; rfl)

end CorBas
